import Mathlib

/-!
Verification of the SurfeSpotVelger surf-condition scoring engine.

The Python source is shallowly embedded as follows:
* Python floats are modelled as exact rationals (`ℚ`); every constant in the
  scoring code is a decimal literal, so the arithmetic is faithful.
* A Python value that may be `None` is modelled as `Option ℚ`.
* `datetime.now().hour` (read inside `_score_time_of_day`) is passed as an
  explicit `hour : ℕ` argument.
* Python's stable `list.sort(key=..., reverse=True)` is modelled by
  `List.insertionSort` with the relation "score is at least as large",
  which is a stable descending sort.
-/

/-- Embeds `calculate_wind_offshore` from `backend/hybrid_surf_service.py`
(lines 305-314); identical copies live in `backend/stormglass_service.py`,
`backend/openweather_service.py` and `backend/weather_service_fixed.py`. -/
def calculate_wind_offshore (wind_direction spot_orientation : Option ℚ) : Bool :=
  match wind_direction, spot_orientation with
  | some wd, some so =>
    let angle_diff := |wd - so|
    let angle_diff := if angle_diff > 180 then 360 - angle_diff else angle_diff
    decide (angle_diff ≤ 90)
  | _, _ => false

/-- Embeds the coarse scorer `calculate_surf_score` from
`backend/hybrid_surf_service.py` (lines 263-303); an identical copy lives in
`backend/stormglass_service.py` (lines 122-167). `None in [...]` returns
`0.0` when any of the five arguments is absent. -/
def calculate_surf_score
    (wave_height wave_period wind_speed wind_direction spot_orientation : Option ℚ) : ℚ :=
  match wave_height, wave_period, wind_speed, wind_direction, spot_orientation with
  | some h, some p, some ws, some wd, some so =>
    let wave_height_score : ℚ :=
      if 0.8 ≤ h ∧ h ≤ 2.0 then 3.0
      else if 0.5 ≤ h ∧ h < 0.8 then 2.0
      else if 2.0 < h ∧ h ≤ 3.0 then 2.0
      else 0.5
    let wave_period_score : ℚ :=
      if 8 ≤ p ∧ p ≤ 15 then 3.0
      else if 6 ≤ p ∧ p < 8 then 2.0
      else if 15 < p ∧ p ≤ 20 then 2.0
      else 1.0
    let is_offshore := calculate_wind_offshore (some wd) (some so)
    let wind_score : ℚ :=
      if is_offshore ∧ ws ≤ 8 then 4.0
      else if ¬is_offshore ∧ ws ≤ 5 then 2.0
      else if ws > 15 then 0.0
      else 1.0
    min (wave_height_score + wave_period_score + wind_score) 10.0
  | _, _, _, _, _ => 0.0

/-- Per-spot preference table entry, the dict values of
`BaselineRecommender.spot_preferences` in `ml/baseline_recommender.py`
(lines 17-60); the free-text `description` field is never read by the
scorer and is omitted. -/
structure SpotPrefs where
  optimal_wave_height : ℚ × ℚ
  optimal_wave_direction : ℚ × ℚ
  optimal_wind_direction : ℚ × ℚ
  max_wind_speed : ℚ
deriving DecidableEq

/-- `self.rules['min_wave_height']` in `ml/baseline_recommender.py`. -/
def rules_min_wave_height : ℚ := 0.3

/-- `self.rules['max_wave_height']`. -/
def rules_max_wave_height : ℚ := 5.0

/-- `self.rules['ideal_wind_speed']`. -/
def rules_ideal_wind_speed : ℚ := 8.0

/-- `self.rules['ideal_period_range']`. -/
def rules_ideal_period_range : ℚ × ℚ := (7, 14)

/-- `self.rules['temperature_bonus_threshold']`. -/
def rules_temperature_bonus_threshold : ℚ := 15.0

/-- Embeds `BaselineRecommender._score_wave_height`
(`ml/baseline_recommender.py` lines 139-157). -/
def score_wave_height (height : ℚ) (optimal_range : ℚ × ℚ) : ℚ :=
  let min_height := optimal_range.1
  let max_height := optimal_range.2
  if height < rules_min_wave_height then 0.0
  else if height > rules_max_wave_height then 10.0
  else if min_height ≤ height ∧ height ≤ max_height then 100.0
  else if height < min_height then max 0 (70 * (height / min_height))
  else max 20 (100 - (height - max_height) * 30)

/-- Embeds `BaselineRecommender._score_wave_direction`
(`ml/baseline_recommender.py` lines 159-177), including the wraparound
branch for ranges with `max_dir < min_dir`. -/
def score_wave_direction (direction : ℚ) (optimal_range : ℚ × ℚ) : ℚ :=
  let min_dir := optimal_range.1
  let max_dir := optimal_range.2
  if max_dir < min_dir then
    if min_dir ≤ direction ∨ direction ≤ max_dir then 100.0
    else
      let dist_to_min := min |direction - min_dir| (360 - |direction - min_dir|)
      let dist_to_max := min |direction - max_dir| (360 - |direction - max_dir|)
      max 0 (100 - (min dist_to_min dist_to_max) * 2)
  else
    if min_dir ≤ direction ∧ direction ≤ max_dir then 100.0
    else max 0 (100 - (min |direction - min_dir| |direction - max_dir|) * 2)

/-- The `speed_score` local of `BaselineRecommender._score_wind`
(`ml/baseline_recommender.py` lines 181-185), factored out by name. -/
def wind_speed_score (speed : ℚ) (prefs : SpotPrefs) : ℚ :=
  if speed > prefs.max_wind_speed then
    max 0 (50 - (speed - prefs.max_wind_speed) * 10)
  else
    min 100 (100 - |speed - rules_ideal_wind_speed| * 5)

/-- Embeds `BaselineRecommender._score_wind`
(`ml/baseline_recommender.py` lines 179-192). -/
def score_wind (speed direction : ℚ) (prefs : SpotPrefs) : ℚ :=
  let speed_score := wind_speed_score speed prefs
  let direction_score := score_wave_direction direction prefs.optimal_wind_direction
  speed_score * 0.7 + direction_score * 0.3

/-- Embeds `BaselineRecommender._score_period`
(`ml/baseline_recommender.py` lines 194-204). -/
def score_period (period : ℚ) : ℚ :=
  let min_period := rules_ideal_period_range.1
  let max_period := rules_ideal_period_range.2
  if min_period ≤ period ∧ period ≤ max_period then 100.0
  else if period < min_period then max 30 (100 - (min_period - period) * 15)
  else max 60 (100 - (period - max_period) * 10)

/-- Embeds `BaselineRecommender._score_temperature`
(`ml/baseline_recommender.py` lines 206-210). -/
def score_temperature (temperature : ℚ) : ℚ :=
  if temperature ≥ rules_temperature_bonus_threshold then 100.0
  else max 0 (temperature * 5)

/-- Embeds `BaselineRecommender._score_time_of_day`
(`ml/baseline_recommender.py` lines 212-223); the source reads
`datetime.now().hour`, which is passed here as the explicit `hour`. -/
def score_time_of_day (hour : ℕ) : ℚ :=
  if 6 ≤ hour ∧ hour ≤ 9 then 100.0
  else if 10 ≤ hour ∧ hour ≤ 16 then 70.0
  else if 17 ≤ hour ∧ hour ≤ 19 then 85.0
  else 30.0

/-- The weather dict consumed by `_calculate_spot_score`; a missing key is
`none`. -/
structure WeatherData where
  wave_height : Option ℚ
  wave_direction : Option ℚ
  wind_speed : Option ℚ
  wind_direction : Option ℚ
  wave_period : Option ℚ
  air_temperature : Option ℚ

/-- Embeds `BaselineRecommender._calculate_spot_score`
(`ml/baseline_recommender.py` lines 102-137): weighted sum of the six
sub-scores, each `weather.get(key, default)` modelled by `Option.getD`,
capped at `max_score = 100`. -/
def calculate_spot_score (weather : WeatherData) (prefs : SpotPrefs) (hour : ℕ) : ℚ :=
  let score : ℚ := 0.0
  let wave_height := weather.wave_height.getD 0.5
  let score := score + score_wave_height wave_height prefs.optimal_wave_height * 0.30
  let wave_direction := weather.wave_direction.getD 270
  let score := score + score_wave_direction wave_direction prefs.optimal_wave_direction * 0.25
  let wind_speed := weather.wind_speed.getD 5.0
  let wind_direction := weather.wind_direction.getD 90
  let score := score + score_wind wind_speed wind_direction prefs * 0.25
  let wave_period := weather.wave_period.getD 8.0
  let score := score + score_period wave_period * 0.10
  let temperature := weather.air_temperature.getD 12.0
  let score := score + score_temperature temperature * 0.05
  let score := score + score_time_of_day hour * 0.05
  min score 100.0

/-- The `'Bore'` entry of `spot_preferences`. -/
def bore_prefs : SpotPrefs := ⟨(0.8, 2.0), (240, 300), (60, 120), 12⟩

/-- The `'Orre'` entry of `spot_preferences`. -/
def orre_prefs : SpotPrefs := ⟨(1.0, 3.0), (250, 310), (70, 130), 15⟩

/-- The `'Hellestø'` entry of `spot_preferences`. -/
def hellesto_prefs : SpotPrefs := ⟨(0.5, 1.8), (220, 290), (40, 100), 10⟩

/-- The `'Sola Strand'` entry of `spot_preferences`. -/
def sola_strand_prefs : SpotPrefs := ⟨(0.6, 2.2), (240, 300), (50, 110), 12⟩

/-- The `'Reve'` entry of `spot_preferences`. -/
def reve_prefs : SpotPrefs := ⟨(1.2, 4.0), (260, 320), (80, 140), 18⟩

/-- The `'Sirevåg'` entry of `spot_preferences`. -/
def sirevag_prefs : SpotPrefs := ⟨(0.8, 2.5), (280, 340), (90, 150), 14⟩

/-- `BaselineRecommender.spot_preferences` in insertion order (Python dicts
preserve insertion order, which is the iteration order of
`get_recommendations`). -/
def spot_preferences : List (String × SpotPrefs) :=
  [("Bore", bore_prefs), ("Orre", orre_prefs), ("Hellestø", hellesto_prefs),
   ("Sola Strand", sola_strand_prefs), ("Reve", reve_prefs), ("Sirevåg", sirevag_prefs)]

/-- A weather dict with every key absent. -/
def empty_weather : WeatherData := ⟨none, none, none, none, none, none⟩

/-- A weather dict explicitly holding the defaults hard-coded in the
`weather.get(key, default)` calls of `_calculate_spot_score`. -/
def default_weather : WeatherData :=
  ⟨some 0.5, some 270, some 5.0, some 90, some 8.0, some 12.0⟩

/-- Replaces each absent field by the default `_calculate_spot_score`
substitutes for it. -/
def fill_defaults (w : WeatherData) : WeatherData :=
  ⟨some (w.wave_height.getD 0.5), some (w.wave_direction.getD 270),
   some (w.wind_speed.getD 5.0), some (w.wind_direction.getD 90),
   some (w.wave_period.getD 8.0), some (w.air_temperature.getD 12.0)⟩

/-- The descending-score relation used to model
`recommendations.sort(key=lambda x: x['score'], reverse=True)`. -/
def score_ge (a b : String × ℚ) : Prop := b.2 ≤ a.2

instance : DecidableRel score_ge := fun a b => inferInstanceAs (Decidable (b.2 ≤ a.2))

instance : IsTotal (String × ℚ) score_ge := ⟨fun a b => le_total b.2 a.2⟩

instance : IsTrans (String × ℚ) score_ge := ⟨fun _ _ _ h1 h2 => le_trans h2 h1⟩

/-- Embeds `BaselineRecommender.get_recommendations`
(`ml/baseline_recommender.py` lines 72-100) restricted to the (spot, score)
content: score every spot of the preference table against the one weather
sample, then stable-sort by descending score (Python's `list.sort` is
stable, modelled by insertion sort). -/
def get_recommendations (weather : WeatherData) (hour : ℕ) : List (String × ℚ) :=
  List.insertionSort score_ge
    (spot_preferences.map fun p => (p.1, calculate_spot_score weather p.2 hour))

/-- The category phrase appended by the final if/elif/else chain of
`SurfRecommender._get_recommendation_reason`
(`backend/surf_recommender.py` lines 193-200). -/
def category_label (surf_score : ℚ) : String :=
  if 8.0 ≤ surf_score then "Utmerket surf-forhold"
  else if 6.0 ≤ surf_score then "Gode surf-forhold"
  else if 4.0 ≤ surf_score then "OK surf-forhold"
  else "Begrensede surf-forhold"

/-- Embeds the phrase list built by `SurfRecommender._get_recommendation_reason`
(`backend/surf_recommender.py` lines 180-202) before joining:
wind phrase, wave-height phrase, period phrase, category phrase, in that
order, truncated to the first three (`reasons[:3]`). -/
def recommendation_reasons
    (offshore_wind : Bool) (wave_height wave_period surf_score : ℚ) : List String :=
  let r1 : List String := if offshore_wind then ["Offshore vind"] else []
  let r2 := if 1.0 ≤ wave_height ∧ wave_height ≤ 2.0 then r1 ++ ["Perfekt bølgehøyde"] else r1
  let r3 := if 8.0 ≤ wave_period ∧ wave_period ≤ 12.0 then r2 ++ ["Lang bølgeperiode"] else r2
  let r4 := r3 ++ [category_label surf_score]
  r4.take 3

/-- The joined rationale string returned by `_get_recommendation_reason`
(`", ".join(reasons[:3])`). -/
def get_recommendation_reason
    (offshore_wind : Bool) (wave_height wave_period surf_score : ℚ) : String :=
  String.intercalate ", " (recommendation_reasons offshore_wind wave_height wave_period surf_score)

/-- C1: the end-to-end scenario of the spec: wave height 1.5 m, period 10 s,
wind 6 m/s from 90°, spot orientation 270°.  The code returns 7.0, not the
claimed 10.0, because `calculate_wind_offshore 90 270` folds |90-270| to 180
and 180 ≤ 90 is false, so the wind sub-score is 1.0 rather than 4.0. -/
theorem c1_coarse_score_on_offshore_scenario :
    calculate_surf_score (some 1.5) (some 10) (some 6) (some 90) (some 270) = 7 ∧
    calculate_wind_offshore (some 90) (some 270) = false := by
  constructor <;> norm_num [calculate_surf_score, calculate_wind_offshore]

/-- C4: the coarse scorer returns exactly 0.0 whenever any one of its five
arguments is absent, independently of which position is missing. -/
theorem c4_missing_input_zero
    (a b c d e : Option ℚ)
    (h : a = none ∨ b = none ∨ c = none ∨ d = none ∨ e = none) :
    calculate_surf_score a b c d e = 0 := by
  cases a <;> cases b <;> cases c <;> cases d <;> cases e
  case some.some.some.some.some =>
    rcases h with h | h | h | h | h <;> exact Option.noConfusion h
  all_goals norm_num [calculate_surf_score]

/-- C4 witness: the first argument absent, the rest present. -/
theorem c4_missing_input_witness :
    calculate_surf_score none (some 10) (some 6) (some 90) (some 270) = 0 :=
  c4_missing_input_zero none (some 10) (some 6) (some 90) (some 270) (Or.inl rfl)

/-- C9: when all five arguments are present the coarse score is at least 1.5
(sub-score minima 0.5 + 1.0 + 0.0), so a result of exactly 0.0 can only come
from an absent argument. -/
theorem c9_fully_populated_min_score
    (a b c d e : Option ℚ) :
    (a = none ∨ b = none ∨ c = none ∨ d = none ∨ e = none) ∨
      1.5 ≤ calculate_surf_score a b c d e := by
  cases a <;> cases b <;> cases c <;> cases d <;> cases e
  case some.some.some.some.some h p ws wd so =>
    refine Or.inr ?_
    simp only [calculate_surf_score]
    split_ifs <;> norm_num
  all_goals exact Or.inl (by simp)

/-- C3 counterexample: for wind direction 180 and orientation 0 (both in
[0, 360)) the offshore test changes its answer when 360 is added to the wind
direction: |540 - 0| = 540 folds to 360 - 540 = -180 ≤ 90 (true), while
|180 - 0| = 180 does not fold and 180 ≤ 90 is false. -/
theorem c3_wrap_invariance_cex :
    calculate_wind_offshore (some (180 + 360)) (some 0) = true ∧
    calculate_wind_offshore (some 180) (some 0) = false := by
  constructor <;> norm_num [calculate_wind_offshore]

/-- C3 amended: for d, o in [0, 360), `calculate_wind_offshore (d+360) o`
equals `calculate_wind_offshore d o` OR `o ≤ d`; the wrapped call is always
true when d ≥ o (the fold 360 - (d + 360 - o) is then non-positive), so the
claimed wrap invariance holds exactly on inputs with d < o or with the
unwrapped test already true. -/
theorem c3_wrap_amended (d o : ℚ)
    (hd0 : 0 ≤ d) (hd1 : d < 360) (ho0 : 0 ≤ o) (ho1 : o < 360) :
    calculate_wind_offshore (some (d + 360)) (some o) =
      (calculate_wind_offshore (some d) (some o) || decide (o ≤ d)) := by
  simp only [calculate_wind_offshore]
  have habs : |d + 360 - o| = d + 360 - o := abs_of_nonneg (by linarith)
  rw [habs]
  rcases le_or_lt o d with hod | hod
  · have habs2 : |d - o| = d - o := abs_of_nonneg (by linarith)
    rw [habs2, if_pos (show (180:ℚ) < d + 360 - o by linarith)]
    have h2 : decide (o ≤ d) = true := decide_eq_true hod
    rw [h2, Bool.or_true]
    exact decide_eq_true (by linarith)
  · have habs2 : |d - o| = o - d := by rw [abs_of_neg (by linarith)]; ring
    have h2 : decide (o ≤ d) = false := decide_eq_false (not_le.mpr hod)
    rw [habs2, h2, Bool.or_false]
    rcases lt_or_le 180 (o - d) with hbig | hsmall
    · rw [if_neg (by push_neg; linarith), if_pos hbig]
      rw [decide_eq_decide]
      constructor <;> intro <;> linarith
    · rcases eq_or_lt_of_le hsmall with heq | hlt
      · rw [if_neg (by push_neg; linarith), if_neg (by push_neg; linarith)]
        rw [decide_eq_decide]
        constructor <;> intro <;> linarith
      · rw [if_pos (by show (180:ℚ) < _; linarith), if_neg (by push_neg; linarith)]
        rw [decide_eq_decide]
        constructor <;> intro <;> linarith

/-- C3 witness: the amended equation at d = 100, o = 200. -/
theorem c3_wrap_witness :
    calculate_wind_offshore (some (100 + 360)) (some 200) =
      (calculate_wind_offshore (some 100) (some 200) || decide ((200:ℚ) ≤ 100)) :=
  c3_wrap_amended 100 200 (by norm_num) (by norm_num) (by norm_num) (by norm_num)

/-- `_score_wave_height` only returns values ≥ 0 (0, 10, 100, `max 0 _`,
`max 20 _`). -/
theorem score_wave_height_nonneg (h : ℚ) (r : ℚ × ℚ) : 0 ≤ score_wave_height h r := by
  simp only [score_wave_height]
  split_ifs <;> norm_num [le_max_iff]

/-- `_score_wave_direction` only returns values ≥ 0 (100 or `max 0 _`). -/
theorem score_wave_direction_nonneg (d : ℚ) (r : ℚ × ℚ) : 0 ≤ score_wave_direction d r := by
  simp only [score_wave_direction]
  split_ifs <;> norm_num [le_max_iff]

/-- `_score_period` only returns values ≥ 30 (100, `max 30 _`, `max 60 _`). -/
theorem score_period_ge_30 (p : ℚ) : 30 ≤ score_period p := by
  simp only [score_period]
  split_ifs <;> norm_num [le_max_iff]

/-- `_score_temperature` only returns values ≥ 0. -/
theorem score_temperature_nonneg (t : ℚ) : 0 ≤ score_temperature t := by
  simp only [score_temperature]
  split_ifs <;> norm_num [le_max_iff]

/-- `_score_time_of_day` only returns 100, 70, 85 or 30, hence ≥ 30. -/
theorem score_time_of_day_ge_30 (hour : ℕ) : 30 ≤ score_time_of_day hour := by
  simp only [score_time_of_day]
  split_ifs <;> norm_num

/-- The speed sub-score is nonnegative for nonnegative speeds whenever the
profile's max wind speed is at most 18 m/s (all six profiles satisfy this);
it can go negative for negative speed inputs. -/
theorem wind_speed_score_nonneg (s : ℚ) (p : SpotPrefs)
    (hs : 0 ≤ s) (hp : p.max_wind_speed ≤ 18) : 0 ≤ wind_speed_score s p := by
  simp only [wind_speed_score]
  split_ifs with hgt
  · norm_num [le_max_iff]
  · push_neg at hgt
    refine le_min (by norm_num) ?_
    have habs : |s - rules_ideal_wind_speed| ≤ 10 := by
      rw [abs_le]
      constructor <;> simp only [rules_ideal_wind_speed] <;> linarith
    linarith

/-- `_score_wind` is nonnegative under the same hypotheses. -/
theorem score_wind_nonneg (s d : ℚ) (p : SpotPrefs)
    (hs : 0 ≤ s) (hp : p.max_wind_speed ≤ 18) : 0 ≤ score_wind s d p := by
  have h1 := wind_speed_score_nonneg s p hs hp
  have h2 := score_wave_direction_nonneg d p.optimal_wind_direction
  simp only [score_wind]
  linarith

/-- C2 counterexample: the weighted scorer has no lower clamp; with wind
speed -100 m/s (all other fields absent, hour 0) the Bore profile scores
-16.875, outside the claimed [0, 100] bound.  The speed sub-score
`min(100, 100 - |s - 8|*5)` is -440 for s = -100 because the `max` floor is
only applied on the over-the-profile-max branch. -/
theorem c2_weighted_score_negative_cex :
    calculate_spot_score ⟨none, none, some (-100), none, none, none⟩ bore_prefs 0 = -16.875 ∧
    calculate_spot_score ⟨none, none, some (-100), none, none, none⟩ bore_prefs 0 < 0 := by
  constructor <;>
    norm_num [calculate_spot_score, score_wave_height, score_wave_direction, score_wind,
      wind_speed_score, score_period, score_temperature, score_time_of_day,
      bore_prefs, rules_min_wave_height, rules_max_wave_height, rules_ideal_wind_speed,
      rules_ideal_period_range, rules_temperature_bonus_threshold]

/-- C2 amended: the coarse scorer always returns a value in [0, 10]; the
weighted scorer is always at most 100, and is at least 0 provided the
(possibly-defaulted) wind speed is nonnegative and the profile's max wind
speed is at most 18 — which holds for every profile of the table.  With a
negative wind-speed input it can return a negative value (no lower clamp). -/
theorem c2_score_bounds_amended :
    (∀ a b c d e : Option ℚ,
        0 ≤ calculate_surf_score a b c d e ∧ calculate_surf_score a b c d e ≤ 10) ∧
    (∀ (w : WeatherData) (p : SpotPrefs) (hour : ℕ), calculate_spot_score w p hour ≤ 100) ∧
    (∀ q ∈ spot_preferences, q.2.max_wind_speed ≤ 18) ∧
    (∀ (w : WeatherData) (p : SpotPrefs) (hour : ℕ),
        p.max_wind_speed ≤ 18 → 0 ≤ w.wind_speed.getD 5.0 →
        0 ≤ calculate_spot_score w p hour) := by
  refine ⟨?_, ?_, ?_, ?_⟩
  · intro a b c d e
    cases a <;> cases b <;> cases c <;> cases d <;> cases e
    case some.some.some.some.some =>
      simp only [calculate_surf_score]
      constructor <;> (split_ifs <;> norm_num)
    all_goals norm_num [calculate_surf_score]
  · intro w p hour
    simp only [calculate_spot_score]
    exact le_trans (min_le_right _ 100.0) (by norm_num)
  · intro q hq
    simp only [spot_preferences] at hq
    fin_cases hq <;>
      norm_num [bore_prefs, orre_prefs, hellesto_prefs, sola_strand_prefs,
        reve_prefs, sirevag_prefs]
  · intro w p hour hp hs
    have h1 := score_wave_height_nonneg (w.wave_height.getD 0.5) p.optimal_wave_height
    have h2 := score_wave_direction_nonneg (w.wave_direction.getD 270) p.optimal_wave_direction
    have h3 := score_wind_nonneg (w.wind_speed.getD 5.0) (w.wind_direction.getD 90) p hs hp
    have h4 := score_period_ge_30 (w.wave_period.getD 8.0)
    have h5 := score_temperature_nonneg (w.air_temperature.getD 12.0)
    have h6 := score_time_of_day_ge_30 hour
    simp only [calculate_spot_score]
    refine le_min ?_ (by norm_num)
    linarith

/-- C2 witness: both bounds at a concrete input discharging the hypotheses
of the last conjunct at the empty sample and the Bore profile. -/
theorem c2_score_bounds_witness :
    (0 ≤ calculate_surf_score none none none none none ∧
      calculate_surf_score none none none none none ≤ 10) ∧
    0 ≤ calculate_spot_score empty_weather bore_prefs 0 :=
  ⟨c2_score_bounds_amended.1 none none none none none,
   c2_score_bounds_amended.2.2.2 empty_weather bore_prefs 0 (by norm_num [bore_prefs])
     (by norm_num [empty_weather])⟩

/-- A wave height at the centre of an optimal range inside [0.3, 5] scores
the full 100. -/
theorem score_wave_height_centered (r : ℚ × ℚ)
    (h1 : 0.3 ≤ r.1) (h2 : r.1 ≤ r.2) (h3 : r.2 ≤ 5) :
    score_wave_height ((r.1 + r.2) / 2) r = 100 := by
  simp only [score_wave_height, rules_min_wave_height, rules_max_wave_height]
  rw [if_neg (by push_neg; linarith), if_neg (by push_neg; linarith),
    if_pos ⟨by linarith, by linarith⟩]
  norm_num

/-- A direction at the centre of a non-wrapping optimal range scores the
full 100. -/
theorem score_wave_direction_centered (r : ℚ × ℚ) (h : r.1 ≤ r.2) :
    score_wave_direction ((r.1 + r.2) / 2) r = 100 := by
  simp only [score_wave_direction]
  rw [if_neg (not_lt.mpr h), if_pos ⟨by linarith, by linarith⟩]
  norm_num

/-- At the ideal speed of 8 m/s, within the profile's max, the speed
sub-score is the full 100. -/
theorem wind_speed_score_ideal (p : SpotPrefs) (h : 8 ≤ p.max_wind_speed) :
    wind_speed_score 8 p = 100 := by
  simp only [wind_speed_score]
  rw [if_neg (not_lt.mpr h)]
  norm_num [rules_ideal_wind_speed]

/-- C5 counterexample: for the Bore profile with every condition exactly at
the centre of its optimal range (height 1.4, wave direction 270, wind 8 m/s
from 90, period 10.5) but air temperature 0 °C and hour 0, the weighted
score is exactly 91.5 < 95: the temperature term contributes 0 and the
time-of-day term only 1.5, so the claimed ≥ 95 bound fails. -/
theorem c5_centered_score_cex :
    calculate_spot_score
      ⟨some ((0.8 + 2.0) / 2), some ((240 + 300 : ℚ) / 2), some 8,
       some ((60 + 120 : ℚ) / 2), some ((7 + 14 : ℚ) / 2), some 0⟩ bore_prefs 0 = 91.5 ∧
    calculate_spot_score
      ⟨some ((0.8 + 2.0) / 2), some ((240 + 300 : ℚ) / 2), some 8,
       some ((60 + 120 : ℚ) / 2), some ((7 + 14 : ℚ) / 2), some 0⟩ bore_prefs 0 < 95 := by
  constructor <;>
    norm_num [calculate_spot_score, score_wave_height, score_wave_direction,
      score_wind, wind_speed_score, score_period, score_temperature, score_time_of_day,
      bore_prefs, rules_min_wave_height, rules_max_wave_height, rules_ideal_wind_speed,
      rules_ideal_period_range, rules_temperature_bonus_threshold]

/-- C5 amended: for every profile whose optimal ranges are non-wrapping,
whose wave-height range lies inside [0.3, 5] and whose max wind speed is at
least 8 (all six table profiles qualify), a perfectly centred condition with
wind speed 8 and period 10.5 scores at least 91.5 — not 95; the deficit is
exactly the temperature and time-of-day bonus terms, which can contribute as
little as 0 and 1.5. -/
theorem c5_centered_score_amended (p : SpotPrefs) (temp : ℚ) (hour : ℕ)
    (h1 : 0.3 ≤ p.optimal_wave_height.1)
    (h2 : p.optimal_wave_height.1 ≤ p.optimal_wave_height.2)
    (h3 : p.optimal_wave_height.2 ≤ 5)
    (h4 : p.optimal_wave_direction.1 ≤ p.optimal_wave_direction.2)
    (h5 : p.optimal_wind_direction.1 ≤ p.optimal_wind_direction.2)
    (h6 : 8 ≤ p.max_wind_speed) :
    91.5 ≤ calculate_spot_score
      ⟨some ((p.optimal_wave_height.1 + p.optimal_wave_height.2) / 2),
       some ((p.optimal_wave_direction.1 + p.optimal_wave_direction.2) / 2),
       some 8,
       some ((p.optimal_wind_direction.1 + p.optimal_wind_direction.2) / 2),
       some ((7 + 14 : ℚ) / 2),
       some temp⟩ p hour := by
  have ha := score_wave_height_centered p.optimal_wave_height h1 h2 h3
  have hb := score_wave_direction_centered p.optimal_wave_direction h4
  have hc := score_wave_direction_centered p.optimal_wind_direction h5
  have hd := wind_speed_score_ideal p h6
  have hp : score_period ((7 + 14 : ℚ) / 2) = 100 := by
    norm_num [score_period, rules_ideal_period_range]
  have ht := score_temperature_nonneg temp
  have htd := score_time_of_day_ge_30 hour
  simp only [calculate_spot_score, Option.getD_some, score_wind]
  rw [ha, hb, hc, hd, hp]
  refine le_min ?_ (by norm_num)
  linarith

/-- C5 witness: the amended bound at the Bore profile, temperature 0,
hour 0. -/
theorem c5_centered_score_witness :
    91.5 ≤ calculate_spot_score
      ⟨some ((bore_prefs.optimal_wave_height.1 + bore_prefs.optimal_wave_height.2) / 2),
       some ((bore_prefs.optimal_wave_direction.1 + bore_prefs.optimal_wave_direction.2) / 2),
       some 8,
       some ((bore_prefs.optimal_wind_direction.1 + bore_prefs.optimal_wind_direction.2) / 2),
       some ((7 + 14 : ℚ) / 2),
       some 0⟩ bore_prefs 0 :=
  c5_centered_score_amended bore_prefs 0 0 (by norm_num [bore_prefs])
    (by norm_num [bore_prefs]) (by norm_num [bore_prefs]) (by norm_num [bore_prefs])
    (by norm_num [bore_prefs]) (by norm_num [bore_prefs])

/-- C6 counterexample: for the Bore profile (max wind speed 12) at 13 m/s
the speed sub-score is max(0, 50 - (13-12)*10) = 40, which is below 50: the
sub-score is not floored at 50. -/
theorem c6_wind_penalty_cex :
    bore_prefs.max_wind_speed < 13 ∧
    wind_speed_score 13 bore_prefs = 40 ∧
    wind_speed_score 13 bore_prefs < 50 := by
  refine ⟨?_, ?_, ?_⟩ <;>
    norm_num [wind_speed_score, bore_prefs, rules_ideal_wind_speed]

/-- C6 amended: above the profile's max wind speed, the speed sub-score is
`max 0 (50 - 10 × excess)` — a base of 50 minus 10 points per m/s of excess,
floored at 0 and therefore never above 50 (the claim's "floored at 50" is
wrong); the wind score combines as 0.7 × speed sub-score + 0.3 × direction
sub-score as claimed. -/
theorem c6_wind_penalty_amended (p : SpotPrefs) (speed direction : ℚ)
    (h : p.max_wind_speed < speed) :
    wind_speed_score speed p = max 0 (50 - (speed - p.max_wind_speed) * 10) ∧
    wind_speed_score speed p ≤ 50 ∧
    score_wind speed direction p =
      wind_speed_score speed p * 0.7 +
        score_wave_direction direction p.optimal_wind_direction * 0.3 := by
  have heq : wind_speed_score speed p = max 0 (50 - (speed - p.max_wind_speed) * 10) := by
    simp only [wind_speed_score]
    rw [if_pos h]
  refine ⟨heq, ?_, rfl⟩
  rw [heq]
  exact max_le (by norm_num) (by linarith)

/-- C6 witness: the amended statement at the Bore profile, 13 m/s wind from
90°. -/
theorem c6_wind_penalty_witness :
    wind_speed_score 13 bore_prefs = max 0 (50 - (13 - bore_prefs.max_wind_speed) * 10) ∧
    wind_speed_score 13 bore_prefs ≤ 50 ∧
    score_wind 13 90 bore_prefs =
      wind_speed_score 13 bore_prefs * 0.7 +
        score_wave_direction 90 bore_prefs.optimal_wind_direction * 0.3 :=
  c6_wind_penalty_amended bore_prefs 13 90 (by norm_num [bore_prefs])

/-- At the default speed of 5 m/s the speed sub-score is nonnegative for
every profile: either the over-max branch (floored at 0) or
min(100, 100 - 15) = 85. -/
theorem wind_speed_score_five_nonneg (p : SpotPrefs) : 0 ≤ wind_speed_score 5 p := by
  simp only [wind_speed_score]
  split_ifs
  · norm_num [le_max_iff]
  · norm_num [rules_ideal_wind_speed, le_min_iff]

/-- The weighted score of the all-absent sample is strictly positive for
every profile: the defaulted period contributes 100 × 0.10, the defaulted
temperature 60 × 0.05, time-of-day at least 30 × 0.05, and every other
component is nonnegative. -/
theorem spot_score_empty_pos (p : SpotPrefs) (hour : ℕ) :
    0 < calculate_spot_score empty_weather p hour := by
  have h1 := score_wave_height_nonneg 0.5 p.optimal_wave_height
  have h2 := score_wave_direction_nonneg 270 p.optimal_wave_direction
  have h3 := wind_speed_score_five_nonneg p
  have h4 := score_wave_direction_nonneg 90 p.optimal_wind_direction
  have h5 : score_period 8.0 = 100 := by
    norm_num [score_period, rules_ideal_period_range]
  have h6 : score_temperature 12.0 = 60 := by
    norm_num [score_temperature, rules_temperature_bonus_threshold]
  have h7 := score_time_of_day_ge_30 hour
  simp only [calculate_spot_score, empty_weather, Option.getD_none, score_wind]
  rw [h5, h6]
  refine lt_min ?_ (by norm_num)
  linarith

/-- C10: missing weather fields are silently replaced by the hard-coded
defaults (height 0.5 m, wave direction 270°, wind 5 m/s from 90°, period
8 s, temperature 12 °C): filling absent fields with those defaults never
changes the score, the all-absent sample scores exactly like the explicit
default sample, and that score is strictly positive — not the coarse
model's 0.0 fallback. -/
theorem c10_defaults_substitution :
    (∀ (w : WeatherData) (p : SpotPrefs) (hour : ℕ),
        calculate_spot_score w p hour = calculate_spot_score (fill_defaults w) p hour) ∧
    (∀ (p : SpotPrefs) (hour : ℕ),
        calculate_spot_score empty_weather p hour =
          calculate_spot_score default_weather p hour ∧
        0 < calculate_spot_score empty_weather p hour) := by
  constructor
  · intro w p hour
    simp only [calculate_spot_score, fill_defaults, Option.getD_some]
  · intro p hour
    exact ⟨rfl, spot_score_empty_pos p hour⟩

/-- Filtering on an exact score value commutes with `orderedInsert`: the
inserted element lands in front of the kept elements of equal score, because
the insertion walks only past elements of strictly larger score. -/
theorem filter_orderedInsert_score (a : String × ℚ) (l : List (String × ℚ)) (s : ℚ) :
    (List.orderedInsert score_ge a l).filter (fun x => decide (x.2 = s)) =
      if a.2 = s then a :: l.filter (fun x => decide (x.2 = s))
      else l.filter (fun x => decide (x.2 = s)) := by
  induction l with
  | nil =>
    by_cases has : a.2 = s <;> simp [List.orderedInsert, List.filter, has]
  | cons b t ih =>
    rw [List.orderedInsert]
    by_cases hab : score_ge a b
    · rw [if_pos hab]
      by_cases has : a.2 = s <;> simp [List.filter_cons, has]
    · rw [if_neg hab]
      by_cases hbs : b.2 = s
      · have has : ¬a.2 = s := by
          intro h
          exact hab (le_of_eq (by rw [h, hbs]))
        simp [List.filter_cons, hbs, has, ih]
      · by_cases has : a.2 = s <;> simp [List.filter_cons, hbs, has, ih]

/-- Filtering on an exact score value is unchanged by the insertion sort:
elements of equal score keep their input order (stability). -/
theorem filter_insertionSort_score (l : List (String × ℚ)) (s : ℚ) :
    (List.insertionSort score_ge l).filter (fun x => decide (x.2 = s)) =
      l.filter (fun x => decide (x.2 = s)) := by
  induction l with
  | nil => rfl
  | cons a t ih =>
    rw [List.insertionSort, filter_orderedInsert_score]
    by_cases has : a.2 = s <;> simp [List.filter_cons, has, ih]

/-- C7: the recommender's output is sorted by descending score, and the sort
is stable: for every score value, the sub-list of output entries carrying
that score is exactly the sub-list of scored entries in spot insertion
order, so two spots with equal scores keep their relative input order. -/
theorem c7_stable_descending_sort (weather : WeatherData) (hour : ℕ) :
    List.Sorted score_ge (get_recommendations weather hour) ∧
    ∀ s : ℚ,
      (get_recommendations weather hour).filter (fun x => decide (x.2 = s)) =
        (spot_preferences.map fun p => (p.1, calculate_spot_score weather p.2 hour)).filter
          (fun x => decide (x.2 = s)) :=
  ⟨List.sorted_insertionSort score_ge _, fun s => filter_insertionSort_score _ s⟩

/-- The category phrase is never the long-period phrase, whatever the
score. -/
theorem category_label_ne_period (s : ℚ) : category_label s ≠ "Lang bølgeperiode" := by
  simp only [category_label]
  split_ifs <;> simp

/-- C8 counterexample: with offshore wind, height 1.5 m, period 13 s and
score 9, the period is ≥ 10 s but the long-period phrase is absent, because
the code's condition is 8.0 ≤ period ≤ 12.0, not period ≥ 10. -/
theorem c8_long_period_cex :
    ((10:ℚ) ≤ 13) ∧
    "Lang bølgeperiode" ∉ recommendation_reasons true 1.5 13 9 := by
  constructor
  · norm_num
  · norm_num [recommendation_reasons, category_label]
    simp

/-- C8 amended: the rationale holds at most 3 phrases, in the fixed order
wind → wave-height → period → category (it is a sublist of that 4-phrase
list), and the long-period phrase appears exactly when the wave period lies
in [8, 12] s — not when it is at least 10 s. -/
theorem c8_rationale_amended
    (offshore_wind : Bool) (wave_height wave_period surf_score : ℚ) :
    (recommendation_reasons offshore_wind wave_height wave_period surf_score).length ≤ 3 ∧
    (recommendation_reasons offshore_wind wave_height wave_period surf_score).Sublist
      ["Offshore vind", "Perfekt bølgehøyde", "Lang bølgeperiode",
        category_label surf_score] ∧
    ("Lang bølgeperiode" ∈
        recommendation_reasons offshore_wind wave_height wave_period surf_score ↔
      8.0 ≤ wave_period ∧ wave_period ≤ 12.0) := by
  have hcat := category_label_ne_period surf_score
  have hcat2 : "Lang bølgeperiode" ≠ category_label surf_score := Ne.symm hcat
  cases offshore_wind <;>
    by_cases hh : 1.0 ≤ wave_height ∧ wave_height ≤ 2.0 <;>
    by_cases hp : 8.0 ≤ wave_period ∧ wave_period ≤ 12.0 <;>
    simp [recommendation_reasons, hh, hp, hcat, hcat2]
